import Mathlib

/-!
Verification development for the 5Genesis Analytics data handler.

The embedding follows the two source modules:
  Analytics/Data handler/data_handler/__main__.py   (routes, fingerprint, cache)
  Analytics/Data handler/data_handler/collect_data.py (InfluxDB v2 collector)

The backing store (InfluxDB, reached through query_api.query_data_frame in
_query_df) is modelled as an oracle `env : String -> DF` mapping each Flux
query text to the data frame the store returns for it; the collector builds
exactly the query strings of the source and feeds them to the oracle.
Machine-level pandas details are reduced to the operations the source uses:
a raw result `DF` (row count plus named columns of nullable integer cells)
and a time-indexed `Frame` (index plus named columns).
-/

/-- Raw result of one Flux query, as returned by `_query_df`:
a row count and named columns of nullable cells (timestamps and numeric
values are both modelled as integers). -/
structure DF where
  nrows : Nat
  cols : List (String × List (Option Int))
  deriving DecidableEq

/-- Time-indexed frame, the shape produced by `get_data` after
`set_index`/`drop`/`concat`: an index of timestamps and named columns. -/
structure Frame where
  index : List Int
  cols : List (String × List (Option Int))
  deriving DecidableEq

/-- pandas `df.empty`: true when the frame has no rows or no columns. -/
def DF.emptyB (df : DF) : Bool :=
  df.nrows == 0 || df.cols.isEmpty

/-- Python `c in df.columns`. -/
def DF.hasCol (df : DF) (c : String) : Bool :=
  df.cols.any (fun p => p.1 == c)

/-- Python `df[c]`: the named column (empty when absent). -/
def DF.getCol (df : DF) (c : String) : List (Option Int) :=
  match df.cols.find? (fun p => p.1 == c) with
  | some p => p.2
  | none => []

/-- pandas `df.empty` on an indexed frame. -/
def Frame.emptyB (f : Frame) : Bool :=
  f.index.isEmpty || f.cols.isEmpty

/-- `pd.DataFrame()` seen as a raw result. -/
def emptyDF : DF := ⟨0, []⟩

/-- `pd.DataFrame()` seen as an indexed frame. -/
def emptyFrame : Frame := ⟨[], []⟩

/-- Python `sorted`, lexicographic/ascending. -/
def pySorted {α : Type} [LinearOrder α] (l : List α) : List α :=
  List.insertionSort (fun a b => a ≤ b) l

/-- Python `sorted(set(l))`: deduplicate, then sort ascending. -/
def sortedUnique {α : Type} [LinearOrder α] [DecidableEq α] (l : List α) : List α :=
  pySorted l.dedup

/-- A single-quote character, used by the Python repr of string lists. -/
def squote : String := String.singleton (Char.ofNat 39)

/-- Python `str(l)` for a list of plain strings, e.g. `["a", "b"]`
renders as brackets around comma-separated single-quoted items. -/
def pyReprStrList (l : List String) : String :=
  "[" ++ String.intercalate ", " (l.map (fun s => squote ++ s ++ squote)) ++ "]"

/-- Python `str(x)` for an optional string (`str(None)` is `"None"`). -/
def pyStrOptStr (o : Option String) : String :=
  match o with
  | none => "None"
  | some s => s

/-- Python `str(b)` for a boolean. -/
def pyStrBool (b : Bool) : String :=
  if b then "True" else "False"

/-- Python `s.lower()` (ASCII), written over the character list so that
it evaluates by reduction. -/
def pyLower (s : String) : String :=
  String.mk (s.data.map Char.toLower)

/-- Python `str(n)` for an optional integer. -/
def pyStrOptInt (o : Option Int) : String :=
  match o with
  | none => "None"
  | some i => toString i

/-- `DataCollector._flux_base`. -/
def fluxBase (bucket start : String) : String :=
  "from(bucket: \"" ++ bucket ++ "\")\n  |> range(start: " ++ start ++ ")\n"

/-- The Flux query text `DataCollector.get_data` builds for one measurement:
measurement filter, ExperimentId-or-ExecutionId filter, optional field
filter, aggregateWindow(mean), pivot, and optional limit/offset clause. -/
def dataQueryFlux (bucket experimentId : String) (fields : List String)
    (limit offset : Option Int) (max_lag start m : String) : String :=
  let flux := fluxBase bucket start
  let flux := flux ++ "  |> filter(fn: (r) => r._measurement == \"" ++ m ++ "\")\n"
  let flux := flux ++ "  |> filter(fn: (r) => r.ExperimentId == \"" ++ experimentId
    ++ "\" or r.ExecutionId == \"" ++ experimentId ++ "\")\n"
  let flux := flux ++ (if fields.isEmpty then "" else
    "  |> filter(fn: (r) => contains(value: r._field, set: ["
      ++ String.intercalate ", " (fields.map (fun f => "\"" ++ f ++ "\"")) ++ "]))\n")
  let flux := flux ++ "  |> aggregateWindow(every: duration(v: \"" ++ max_lag
    ++ "\"), fn: mean, createEmpty: false)\n"
  let flux := flux ++ "  |> pivot(rowKey: [\"_time\"], columnKey: [\"_field\"], valueColumn: \"_value\")\n"
  match limit with
  | none => flux
  | some l =>
    flux ++ "  |> limit(n: " ++ toString l
      ++ (match offset with
          | none => ""
          | some o => ", offset: " ++ toString o) ++ ")\n"

/-- The Flux query text `get_measurements_for_experimentId` builds. -/
def measurementsFlux (bucket experimentId start : String) : String :=
  fluxBase bucket start
    ++ "  |> filter(fn: (r) => r.ExperimentId == \"" ++ experimentId
    ++ "\" or r.ExecutionId == \"" ++ experimentId
    ++ "\")\n  |> keep(columns: [\"_measurement\"])\n  |> group()\n  |> distinct(column: \"_measurement\")\n"

/-- The `schema.tagValues` query of `get_all_experimentIds` for one tag. -/
def schemaTagValuesAllFlux (bucket tag : String) : String :=
  "\nimport \"influxdata/influxdb/schema\"\nschema.tagValues(bucket: \"" ++ bucket
    ++ "\", tag: \"" ++ tag ++ "\")\n"

/-- The `schema.tagValues` query of `get_experimentIds_for_measurement`
for one tag, with the measurement predicate. -/
def schemaTagValuesMeasFlux (bucket tag measurement : String) : String :=
  "\nimport \"influxdata/influxdb/schema\"\nschema.tagValues(\n  bucket: \"" ++ bucket
    ++ "\",\n  tag: \"" ++ tag ++ "\",\n  predicate: (r) => r._measurement == \""
    ++ measurement ++ "\"\n)\n"

/-- One iteration of the tag loops in `get_all_experimentIds` and
`get_experimentIds_for_measurement`: run the query, and when the result is
non-empty and has a `_value` column take its non-null values as strings. -/
def tagValsOf (env : String → DF) (flux : String) : List String :=
  let df := env flux
  if !df.emptyB && df.hasCol "_value" then
    ((df.getCol "_value").filterMap id).map toString
  else []

/-- `DataCollector.get_all_experimentIds`: union of the tag values found
under the two legacy tag names, deduplicated and sorted. -/
def DataCollector.get_all_experimentIds (bucket : String) (env : String → DF) : List String :=
  sortedUnique (tagValsOf env (schemaTagValuesAllFlux bucket "ExperimentId")
    ++ tagValsOf env (schemaTagValuesAllFlux bucket "ExecutionId"))

/-- `DataCollector.get_experimentIds_for_measurement` (the `start`
parameter exists in the source but is unused by the query). -/
def DataCollector.get_experimentIds_for_measurement (bucket : String) (env : String → DF)
    (measurement start : String) : List String :=
  sortedUnique (tagValsOf env (schemaTagValuesMeasFlux bucket "ExperimentId" measurement)
    ++ tagValsOf env (schemaTagValuesMeasFlux bucket "ExecutionId" measurement))

/-- `DataCollector.get_measurements_for_experimentId`: empty list when the
query yields no rows, otherwise the sorted distinct values of the
`_measurement` column (falling back to `_value`). -/
def DataCollector.get_measurements_for_experimentId (bucket : String) (env : String → DF)
    (experimentId start : String) : List String :=
  let df := env (measurementsFlux bucket experimentId start)
  if df.emptyB then []
  else
    sortedUnique (((df.getCol
      (if df.hasCol "_measurement" then "_measurement" else "_value")).filterMap id).map toString)

/-- The per-measurement frame shaping in `get_data`: set the index from the
`_time` column (pandas keeps the positional index when `_time` is absent)
and drop the helper columns. -/
def toFrame (df : DF) : Frame :=
  { index :=
      if df.hasCol "_time" then (df.getCol "_time").map (fun c => c.getD 0)
      else (List.range df.nrows).map (fun n => (n : Int)),
    cols := df.cols.filter (fun p =>
      !(p.1 == "_time" || p.1 == "_start" || p.1 == "_stop"
        || p.1 == "result" || p.1 == "table")) }

/-- Value of a column at timestamp `t`, given the frame index the column
belongs to (missing timestamps give a null cell). -/
def valueAt (fidx : List Int) (v : List (Option Int)) (t : Int) : Option Int :=
  match List.findIdx? (fun x => x == t) fidx with
  | none => none
  | some i => (v[i]?).getD none

/-- `pd.concat(dfs, axis=1).sort_index()` on frames with unique indices:
the output index is the sorted union of the input indices and every input
column is aligned onto it (outer join on the time index). -/
def concatSorted (fs : List Frame) : Frame :=
  let idx := sortedUnique (List.flatten (fs.map (fun f => f.index)))
  { index := idx,
    cols := List.flatten (fs.map (fun f =>
      f.cols.map (fun p => (p.1, idx.map (fun t => valueAt f.index p.2 t))))) }

/-- The measurement loop of `get_data`: query each measurement, keep the
non-empty results (shaped by `toFrame`), return `pd.DataFrame()` when none
produced rows, otherwise the column-wise concatenation sorted by time. -/
def runMeasurements (bucket : String) (env : String → DF) (experimentId : String)
    (fields : List String) (limit offset : Option Int) (max_lag start : String)
    (ms : List String) : Frame :=
  let dfs := ms.filterMap (fun m =>
    let df := env (dataQueryFlux bucket experimentId fields limit offset max_lag start m)
    if df.emptyB then none else some (toFrame df))
  if dfs.isEmpty then emptyFrame else concatSorted dfs

/-- `DataCollector.get_data`: resolve the measurement list when it is empty,
then run the per-measurement queries. `additional_clause`, `chunked` and
`chunk_size` are accepted and ignored, as in the v2 source. -/
def DataCollector.get_data (bucket : String) (env : String → DF) (experimentId : String)
    (measurements fields : List String) (additional_clause : Option String)
    (chunked : Bool) (chunk_size : Int) (limit offset : Option Int)
    (max_lag start : String) : Frame :=
  let ms := if measurements.isEmpty
    then DataCollector.get_measurements_for_experimentId bucket env experimentId start
    else measurements
  runMeasurements bucket env experimentId fields limit offset max_lag start ms

/-- A configured datasource as created at startup in `__main__`: the bucket
it points at and whether its client handle is live (`sources[ds].client`). -/
structure Source where
  client : Bool
  bucket : String
  deriving DecidableEq

/-- Modelled from the spec: the Series Synchronizer
(`time_series_matching.synchronize`) and the Outlier Filter
(`outlier_detection.remove`) are repository modules that are not present
under src/; the spec treats both as opaque post-retrieval transforms.
`synchronize` is the merge=True call of `retrieve_data`, `syncPair` the
merge=False call of the two-experiment comparison path, `remove` the
outlier filter selected by strategy index (0 = zscore, 1 = mad), which per
the spec returns a table with the same columns and a subset of the rows. -/
structure Collaborators where
  synchronize : Frame → String → Frame
  syncPair : Frame → Frame → String → Frame × Frame
  remove : Frame → Nat → Frame

/-- Result of one `retrieve_data` call: the value returned to the caller
(`none` when the datasource is unavailable), the cache state afterwards,
and whether the collector was invoked (the uncached branch was taken). -/
structure RdOut where
  data : Option Frame
  cache : List (String × Frame)
  fetched : Bool
  deriving DecidableEq

/-- The fingerprint `dataid` of `retrieve_data` (line 90 of `__main__`):
datasource, experimentId, the sorted measurements joined without
separator, then the Python str() renderings of fields, remove_outliers,
match_series, additional_clause, max_lag and limit. `offset`, `chunked`
and `chunk_size` do not appear. -/
def dataidOf (datasource experimentId : String) (measurements fields : List String)
    (match_series : Bool) (remove_outliers additional_clause : Option String)
    (limit : Option Int) (max_lag : String) : String :=
  datasource ++ experimentId ++ String.join (pySorted measurements)
    ++ pyReprStrList fields ++ pyStrOptStr remove_outliers ++ pyStrBool match_series
    ++ pyStrOptStr additional_clause ++ max_lag ++ pyStrOptInt limit

/-- Lines 102-108 of `__main__`: after the cache step, the data is passed
through the synchronizer when match_series is set, and through the outlier
filter when remove_outliers names (case-insensitively) zscore or mad. -/
def postProcess (C : Collaborators) (match_series : Bool)
    (remove_outliers : Option String) (max_lag : String) (data : Frame) : Frame :=
  let data := if match_series then C.synchronize data max_lag else data
  match remove_outliers with
  | none => data
  | some s =>
    let data := if pyLower s == "zscore" then C.remove data 0 else data
    if pyLower s == "mad" then C.remove data 1 else data

/-- `retrieve_data` of `__main__` (lines 86-110), with the process-global
state passed explicitly: the cache dictionary is an association list and
the returned record carries the new cache plus a flag recording whether
the uncached branch ran. Unavailable datasources return `none` before the
fingerprint is computed; with caching enabled a miss stores the fetched
frame under the fingerprint before post-processing is applied. -/
def retrieve_data (enable_cache : Bool) (sources : List (String × Source))
    (env : String → DF) (C : Collaborators) (cache : List (String × Frame))
    (datasource experimentId : String) (measurements fields : List String)
    (match_series : Bool) (remove_outliers additional_clause : Option String)
    (chunked : Bool) (chunk_size : Int) (limit offset : Option Int)
    (max_lag : String) : RdOut :=
  match List.lookup datasource sources with
  | none => ⟨none, cache, false⟩
  | some src =>
    if !src.client then ⟨none, cache, false⟩
    else
      let dataid := dataidOf datasource experimentId measurements fields
        match_series remove_outliers additional_clause limit max_lag
      let step : Frame × List (String × Frame) × Bool :=
        if enable_cache then
          match List.lookup dataid cache with
          | none =>
            let d := DataCollector.get_data src.bucket env experimentId measurements
              fields additional_clause chunked chunk_size limit offset max_lag "-30d"
            (d, (dataid, d) :: cache, true)
          | some d => (d, cache, false)
        else
          (DataCollector.get_data src.bucket env experimentId measurements
            fields additional_clause chunked chunk_size limit offset max_lag "-30d",
           cache, true)
      ⟨some (postProcess C match_series remove_outliers max_lag step.1),
       step.2.1, step.2.2⟩

/-- The `/purge_cache` route body: `data_cache = {}`. -/
def purge_cache (cache : List (String × Frame)) : List (String × Frame) := []

/-- Availability test used by every route:
`datasource in sources and sources[datasource].client`. -/
def availableB (sources : List (String × Source)) (datasource : String) : Bool :=
  match List.lookup datasource sources with
  | none => false
  | some src => src.client

/-- The bucket of a configured datasource (empty for unknown names). -/
def bucketOf (sources : List (String × Source)) (datasource : String) : String :=
  match List.lookup datasource sources with
  | none => ""
  | some src => src.bucket

/-- Line 143/145 of `__main__`:
`series.index = series.index - series.index.min()`. -/
def listMin : List Int → Option Int
  | [] => none
  | x :: xs => some (xs.foldl (fun a b => if a ≤ b then a else b) x)

/-- Rebasing of a time index in the two-experiment comparison path:
subtract the minimum timestamp of the index from every entry (pandas
raises on an empty index; the empty case is returned unchanged and is
outside every claim). -/
def rebaseIndex (idx : List Int) : List Int :=
  match listMin idx with
  | none => idx
  | some m => idx.map (fun t => t - m)

/-- Serialized response bodies of the `/get_data` route: the error object,
the column map of one frame (`data.items()`), or the two named aligned
series of the comparison path. -/
inductive Body where
  | errMsg (msg : String)
  | frameCols (f : Frame)
  | pair (a b : Frame)
  deriving DecidableEq

/-- Outcome of one route invocation: a JSON body with an HTTP status, or
an exception escaping the handler (Flask then answers 500). -/
inductive Resp where
  | json (body : Body) (status : Nat)
  | raised
  deriving DecidableEq

/-- The `/get_data` route handler (lines 113-149 of `__main__`), after
request parsing. Single-experiment path: a frame that is empty gets the
404 not-available error; a `None` from `retrieve_data` reaches
`data.items()` and raises AttributeError. Two-experiment path: a `None`
first series gets the 404 error, a `None` second series raises when its
index is rebased; otherwise both indices are rebased and the pair is
synchronized with merge=False. -/
def Routes.get_data (enable_cache : Bool) (sources : List (String × Source))
    (env : String → DF) (C : Collaborators) (cache : List (String × Frame))
    (datasource experimentId1 : String) (experimentId2 : Option String)
    (measurements fields : List String) (match_series : Bool)
    (remove_outliers additional_clause : Option String) (chunked : Bool)
    (chunk_size : Int) (limit offset : Option Int) (max_lag : String) :
    Resp × List (String × Frame) :=
  match experimentId2 with
  | none =>
    let r := retrieve_data enable_cache sources env C cache datasource experimentId1
      measurements fields match_series remove_outliers additional_clause chunked
      chunk_size limit offset max_lag
    match r.data with
    | some f =>
      if f.emptyB then
        (Resp.json (Body.errMsg ("Data source " ++ datasource
          ++ " is currently not available.")) 404, r.cache)
      else (Resp.json (Body.frameCols f) 200, r.cache)
    | none => (Resp.raised, r.cache)
  | some e2 =>
    let r1 := retrieve_data enable_cache sources env C cache datasource experimentId1
      measurements fields match_series remove_outliers additional_clause chunked
      chunk_size limit offset max_lag
    match r1.data with
    | none =>
      (Resp.json (Body.errMsg ("Data source " ++ datasource
        ++ " is currently not available.")) 404, r1.cache)
    | some s1 =>
      let s1r : Frame := ⟨rebaseIndex s1.index, s1.cols⟩
      let r2 := retrieve_data enable_cache sources env C r1.cache datasource e2
        measurements fields match_series remove_outliers additional_clause chunked
        chunk_size limit offset max_lag
      match r2.data with
      | none => (Resp.raised, r2.cache)
      | some s2 =>
        let s2r : Frame := ⟨rebaseIndex s2.index, s2.cols⟩
        let p := C.syncPair s1r s2r max_lag
        (Resp.json (Body.pair p.1 p.2) 200, r2.cache)

/-- A one-datasource configuration with a live client, bucket `b`. -/
def srcD : List (String × Source) := [("d", ⟨true, "b"⟩)]

/-- A one-datasource configuration whose client failed to initialize. -/
def srcDead : List (String × Source) := [("x", ⟨false, "bx"⟩)]

/-- A backing store that answers every query with an empty result. -/
def emptyEnv : String → DF := fun _ => emptyDF

/-- Collaborators acting as the identity (allowed by the spec contract:
same columns, a subset of the rows). -/
def idCollab : Collaborators := ⟨fun f _ => f, fun a b _ => (a, b), fun f _ => f⟩

/-- Collaborators whose outlier filter drops every row while keeping all
columns, the extreme case of the spec contract for the Outlier Filter. -/
def dropRowsCollab : Collaborators :=
  ⟨fun f _ => f, fun a b _ => (a, b), fun f _ => ⟨[], f.cols.map (fun p => (p.1, []))⟩⟩

/-- One-row result a store can return for a measurement query. -/
def c1dfA : DF := ⟨1, [("_time", [some 0]), ("v", [some 10])]⟩

/-- A different one-row result, for the offset-truncated query. -/
def c1dfB : DF := ⟨1, [("_time", [some 1]), ("v", [some 20])]⟩

/-- The Flux text of the measurement query with limit 1 and offset 1. -/
def c1fluxOff : String := dataQueryFlux "b" "e" [] (some 1) (some 1) "1s" "-30d" "m"

/-- A backing store on which the offset-truncated query returns a
different page of rows than the query without offset. -/
def c1env : String → DF := fun s => if s == c1fluxOff then c1dfB else c1dfA

/-- A one-row result used to exercise the outlier filter. -/
def c3df : DF := ⟨1, [("_time", [some 0]), ("v", [some 7])]⟩

/-- A backing store that always returns that one-row result. -/
def c3env : String → DF := fun _ => c3df

theorem sortedUnique_sorted {α : Type} [LinearOrder α] [DecidableEq α] (l : List α) :
    List.Sorted (fun a b => a ≤ b) (sortedUnique l) :=
  List.sorted_insertionSort _ _

theorem sortedUnique_nodup {α : Type} [LinearOrder α] [DecidableEq α] (l : List α) :
    (sortedUnique l).Nodup :=
  (List.perm_insertionSort _ _).nodup_iff.mpr (List.nodup_dedup l)

theorem mem_sortedUnique {α : Type} [LinearOrder α] [DecidableEq α] {l : List α} {x : α} :
    x ∈ sortedUnique l ↔ x ∈ l := by
  simp [sortedUnique, pySorted, List.mem_insertionSort, List.mem_dedup]

theorem pySorted_eq_of_perm {α : Type} [LinearOrder α] {l₁ l₂ : List α} (h : l₁.Perm l₂) :
    pySorted l₁ = pySorted l₂ :=
  List.eq_of_perm_of_sorted
    ((List.perm_insertionSort _ _).trans (h.trans (List.perm_insertionSort _ _).symm))
    (List.sorted_insertionSort _ _) (List.sorted_insertionSort _ _)

theorem retrieve_data_unavailable {sources : List (String × Source)} {ds : String}
    (h : availableB sources ds = false) (ec : Bool) (env : String → DF)
    (C : Collaborators) (cache : List (String × Frame)) (e : String)
    (ms fs : List String) (msr : Bool) (ro ac : Option String) (ch : Bool)
    (cs : Int) (l o : Option Int) (ml : String) :
    retrieve_data ec sources env C cache ds e ms fs msr ro ac ch cs l o ml
      = ⟨none, cache, false⟩ := by
  cases hl : List.lookup ds sources with
  | none => simp [retrieve_data, hl]
  | some src =>
    simp [availableB, hl] at h
    simp [retrieve_data, hl, h]

theorem foldlMin_le_init (xs : List Int) :
    ∀ a : Int, xs.foldl (fun a b => if a ≤ b then a else b) a ≤ a := by
  induction xs with
  | nil => intro a; simp
  | cons b t ih =>
    intro a
    simp only [List.foldl_cons]
    have h1 := ih (if a ≤ b then a else b)
    have h2 : (if a ≤ b then a else b) ≤ a := by split <;> omega
    omega

theorem foldlMin_le_mem (xs : List Int) :
    ∀ (a x : Int), x ∈ xs → xs.foldl (fun a b => if a ≤ b then a else b) a ≤ x := by
  induction xs with
  | nil => intro a x hx; simp at hx
  | cons b t ih =>
    intro a x hx
    simp only [List.foldl_cons]
    rcases List.mem_cons.mp hx with rfl | hx2
    · have h1 := foldlMin_le_init t (if a ≤ x then a else x)
      have h2 : (if a ≤ x then a else x) ≤ x := by split <;> omega
      omega
    · exact ih _ x hx2

theorem foldlMin_mem_or (xs : List Int) :
    ∀ a : Int, xs.foldl (fun a b => if a ≤ b then a else b) a = a
      ∨ xs.foldl (fun a b => if a ≤ b then a else b) a ∈ xs := by
  induction xs with
  | nil => intro a; left; rfl
  | cons b t ih =>
    intro a
    simp only [List.foldl_cons]
    rcases ih (if a ≤ b then a else b) with h | h
    · rw [h]
      split
      · left; rfl
      · right; exact List.mem_cons_self b t
    · right; exact List.mem_cons_of_mem b h

theorem listMin_le {l : List Int} {m : Int} (h : listMin l = some m) :
    ∀ x ∈ l, m ≤ x := by
  cases l with
  | nil => cases h
  | cons a t =>
    injection h with h
    intro x hx
    rcases List.mem_cons.mp hx with rfl | hx2
    · exact h ▸ foldlMin_le_init t x
    · exact h ▸ foldlMin_le_mem t a x hx2

theorem listMin_mem {l : List Int} {m : Int} (h : listMin l = some m) : m ∈ l := by
  cases l with
  | nil => cases h
  | cons a t =>
    injection h with h
    rcases foldlMin_mem_or t a with h2 | h2
    · rw [h2] at h
      exact h ▸ List.mem_cons_self a t
    · exact List.mem_cons_of_mem a (h ▸ h2)

theorem listMin_ne_nil {l : List Int} (h : l ≠ []) : ∃ m, listMin l = some m := by
  cases l with
  | nil => exact absurd rfl h
  | cons a t => exact ⟨_, rfl⟩

theorem getD_map_sub (l : List Int) (m : Int) :
    ∀ i : Nat, i < l.length → (l.map (fun t => t - m)).getD i 0 = l.getD i 0 - m := by
  induction l with
  | nil => intro i h; simp at h
  | cons a t ih =>
    intro i h
    cases i with
    | zero => simp
    | succ n =>
      simp only [List.map_cons, List.getD_cons_succ]
      exact ih n (by simpa using h)

/-- C4: cache transparency. For a single `retrieve_data` call (the cache
starts empty, as at process start) with fixed parameters and an unchanged
backing store, the value returned with the cache-enable flag set equals
the value returned with it unset; and with the flag unset the cache
mapping is never read (the result does not depend on it) and never
written (it is returned unchanged). -/
theorem c4_cache_transparency (sources : List (String × Source)) (env : String → DF)
    (C : Collaborators) (ds e : String) (ms fs : List String) (msr : Bool)
    (ro ac : Option String) (ch : Bool) (cs : Int) (l o : Option Int) (ml : String) :
    (retrieve_data true sources env C [] ds e ms fs msr ro ac ch cs l o ml).data
      = (retrieve_data false sources env C [] ds e ms fs msr ro ac ch cs l o ml).data
  ∧ ∀ cache : List (String × Frame),
      (retrieve_data false sources env C cache ds e ms fs msr ro ac ch cs l o ml).data
        = (retrieve_data false sources env C [] ds e ms fs msr ro ac ch cs l o ml).data
    ∧ (retrieve_data false sources env C cache ds e ms fs msr ro ac ch cs l o ml).cache
        = cache := by
  cases hl : List.lookup ds sources with
  | none => refine ⟨?_, fun cache => ⟨?_, ?_⟩⟩ <;> simp [retrieve_data, hl]
  | some src =>
    cases hc : src.client with
    | false => refine ⟨?_, fun cache => ⟨?_, ?_⟩⟩ <;> simp [retrieve_data, hl, hc]
    | true => refine ⟨?_, fun cache => ⟨?_, ?_⟩⟩ <;> simp [retrieve_data, hl, hc]

/-- C5: purge correctness. `purge_cache` discards every entry; after a
first retrieval (from the startup-empty cache) populated the cache, a
purge followed by a retrieval with the same parameters takes the uncached
branch again (the collector is re-invoked) and, with the backing store
unchanged, returns the same value as the pre-purge call. -/
theorem c5_purge_recompute (sources : List (String × Source)) (env : String → DF)
    (C : Collaborators) (ds e : String) (ms fs : List String) (msr : Bool)
    (ro ac : Option String) (ch : Bool) (cs : Int) (l o : Option Int) (ml : String)
    (hav : availableB sources ds = true) :
    (∀ (cache : List (String × Frame)) (k : String),
        List.lookup k (purge_cache cache) = none)
  ∧ (retrieve_data true sources env C
        (purge_cache (retrieve_data true sources env C [] ds e ms fs msr ro ac ch cs l o ml).cache)
        ds e ms fs msr ro ac ch cs l o ml).fetched = true
  ∧ (retrieve_data true sources env C
        (purge_cache (retrieve_data true sources env C [] ds e ms fs msr ro ac ch cs l o ml).cache)
        ds e ms fs msr ro ac ch cs l o ml).data
      = (retrieve_data true sources env C [] ds e ms fs msr ro ac ch cs l o ml).data := by
  cases hl : List.lookup ds sources with
  | none => simp [availableB, hl] at hav
  | some src =>
    simp only [availableB, hl] at hav
    refine ⟨fun cache k => rfl, ?_, ?_⟩ <;> simp [retrieve_data, purge_cache, hl, hav]

/-- C5 witness: a concrete run over the all-empty backing store. -/
theorem c5_purge_recompute_witness :
    availableB srcD "d" = true
  ∧ (retrieve_data true srcD emptyEnv idCollab
        (purge_cache (retrieve_data true srcD emptyEnv idCollab [] "d" "e" [] [] false none none false 10000 none none "1s").cache)
        "d" "e" [] [] false none none false 10000 none none "1s").fetched = true :=
  ⟨by decide,
   (c5_purge_recompute srcD emptyEnv idCollab "d" "e" [] [] false none none false 10000
      none none "1s" (by decide)).2.1⟩

/-- C2 counterexample: the fingerprint is NOT invariant under permutation
of the fields list — the source sorts only the measurements and renders
the fields list in request order, so swapping two fields changes the
fingerprint. -/
theorem c2_counterexample :
    dataidOf "d" "e" ["m"] ["a", "b"] false none none none "1s"
      ≠ dataidOf "d" "e" ["m"] ["b", "a"] false none none none "1s" := by decide

/-- C2 (amended): the fingerprint computed by `retrieve_data` is invariant
under every permutation of the measurements list (they are sorted before
being joined); permutations of the fields list are not in general
fingerprint-invariant. -/
theorem c2_measurement_permutation_invariance (ds e : String) (ms1 ms2 fs : List String)
    (msr : Bool) (ro ac : Option String) (l : Option Int) (ml : String)
    (h : ms1.Perm ms2) :
    dataidOf ds e ms1 fs msr ro ac l ml = dataidOf ds e ms2 fs msr ro ac l ml := by
  unfold dataidOf
  rw [pySorted_eq_of_perm h]

/-- C2 witness: a concrete permutation of two measurement names. -/
theorem c2_measurement_permutation_invariance_witness :
    (["m2", "m1"] : List String).Perm ["m1", "m2"]
  ∧ dataidOf "d" "e" ["m2", "m1"] [] false none none none "1s"
      = dataidOf "d" "e" ["m1", "m2"] [] false none none none "1s" :=
  ⟨by decide,
   c2_measurement_permutation_invariance "d" "e" ["m2", "m1"] ["m1", "m2"] [] false
     none none none "1s" (by decide)⟩

set_option maxRecDepth 100000 in
/-- C1 counterexample: `offset` is not incorporated into the fingerprint.
With limit 1, the call without offset and the call with offset 1 issue
different per-measurement queries, which on the store `c1env` return
different rows, yet with caching enabled the second call differing only
in offset hits the cache entry of the first and is not recomputed. -/
theorem c1_counterexample :
    (let r1 := retrieve_data true srcD c1env idCollab [] "d" "e" ["m"] [] false none
        none false 10000 (some 1) none "1s"
     let r2 := retrieve_data true srcD c1env idCollab r1.cache "d" "e" ["m"] [] false
        none none false 10000 (some 1) (some 1) "1s"
     r2.fetched = false ∧ r2.data = r1.data)
  ∧ (retrieve_data false srcD c1env idCollab [] "d" "e" ["m"] [] false none none
        false 10000 (some 1) none "1s").data
      ≠ (retrieve_data false srcD c1env idCollab [] "d" "e" ["m"] [] false none none
        false 10000 (some 1) (some 1) "1s").data := by decide

/-- C1 (amended): the fingerprint `dataid` is derived from datasource,
experiment identifier, sorted measurements, fields, outlier mode,
synchronization flag, additional clause, max-lag and limit, but NOT from
offset (`dataidOf` has no offset parameter). Hence, for every available
datasource, two calls that differ only in offset share a fingerprint:
with caching enabled the second call is served the cached result of the
first without re-invoking the collector, even though the uncached
per-measurement queries differ (see the counterexample). -/
theorem c1_fingerprint_omits_offset (sources : List (String × Source)) (env : String → DF)
    (C : Collaborators) (ds e : String) (ms fs : List String) (msr : Bool)
    (ro ac : Option String) (ch : Bool) (cs : Int) (l : Option Int) (ml : String)
    (o1 o2 : Option Int) (hav : availableB sources ds = true) :
    (retrieve_data true sources env C
        (retrieve_data true sources env C [] ds e ms fs msr ro ac ch cs l o1 ml).cache
        ds e ms fs msr ro ac ch cs l o2 ml).fetched = false
  ∧ (retrieve_data true sources env C
        (retrieve_data true sources env C [] ds e ms fs msr ro ac ch cs l o1 ml).cache
        ds e ms fs msr ro ac ch cs l o2 ml).data
      = (retrieve_data true sources env C [] ds e ms fs msr ro ac ch cs l o1 ml).data := by
  cases hl : List.lookup ds sources with
  | none => simp [availableB, hl] at hav
  | some src =>
    simp only [availableB, hl] at hav
    constructor <;> simp [retrieve_data, hl, hav, List.lookup]

/-- C1 witness: concrete offsets none and 1 on the one-datasource setup. -/
theorem c1_fingerprint_omits_offset_witness :
    availableB srcD "d" = true
  ∧ (retrieve_data true srcD c1env idCollab
        (retrieve_data true srcD c1env idCollab [] "d" "e" ["m"] [] false none none
          false 10000 (some 1) none "1s").cache
        "d" "e" ["m"] [] false none none false 10000 (some 1) (some 1) "1s").fetched = false :=
  ⟨by decide,
   (c1_fingerprint_omits_offset srcD c1env idCollab "d" "e" ["m"] [] false none none
      false 10000 (some 1) "1s" none (some 1) (by decide)).1⟩

set_option maxRecDepth 100000 in
/-- C3 counterexample: with caching enabled and outlier removal requested,
the entry stored under the fingerprint is the raw fetched table (one row),
while the value returned to the caller is the post-processed table (the
filter dropped the row); the cached entry does not equal the value
returned to that fingerprint-holder. The filter instance obeys the spec
contract for the Outlier Filter (same columns, subset of rows). -/
theorem c3_counterexample :
    List.lookup (dataidOf "d" "e" ["m"] [] false (some "zscore") none none "1s")
        (retrieve_data true srcD c3env dropRowsCollab [] "d" "e" ["m"] [] false
          (some "zscore") none false 10000 none none "1s").cache
      = some ⟨[0], [("v", [some 7])]⟩
  ∧ (retrieve_data true srcD c3env dropRowsCollab [] "d" "e" ["m"] [] false
        (some "zscore") none false 10000 none none "1s").data
      = some ⟨[], [("v", [])]⟩
  ∧ (⟨[0], [("v", [some 7])]⟩ : Frame) ≠ ⟨[], [("v", [])]⟩ := by decide

/-- C3 (amended): on a cache miss the raw fetched table is stored in the
cache BEFORE the Outlier Filter and Series Synchronizer run; the
post-processing is applied after the cache step on every call, so the
value returned to the caller is the post-processed transform of the
cached entry, not the cached entry itself. -/
theorem c3_cache_stores_prefiltered (sources : List (String × Source)) (env : String → DF)
    (C : Collaborators) (cache : List (String × Frame)) (ds e : String)
    (ms fs : List String) (msr : Bool) (ro ac : Option String) (ch : Bool)
    (cs : Int) (l o : Option Int) (ml : String)
    (hav : availableB sources ds = true)
    (hmiss : List.lookup (dataidOf ds e ms fs msr ro ac l ml) cache = none) :
    retrieve_data true sources env C cache ds e ms fs msr ro ac ch cs l o ml
      = ⟨some (postProcess C msr ro ml
            (DataCollector.get_data (bucketOf sources ds) env e ms fs ac ch cs l o ml "-30d")),
         (dataidOf ds e ms fs msr ro ac l ml,
          DataCollector.get_data (bucketOf sources ds) env e ms fs ac ch cs l o ml "-30d") :: cache,
         true⟩ := by
  cases hl : List.lookup ds sources with
  | none => simp [availableB, hl] at hav
  | some src =>
    simp only [availableB, hl] at hav
    simp [retrieve_data, bucketOf, hl, hav, hmiss]

/-- C3 witness: the concrete run of the counterexample, through the
amended theorem. -/
theorem c3_cache_stores_prefiltered_witness :
    availableB srcD "d" = true
  ∧ List.lookup (dataidOf "d" "e" ["m"] [] false (some "zscore") none none "1s")
      ([] : List (String × Frame)) = none
  ∧ retrieve_data true srcD c3env dropRowsCollab [] "d" "e" ["m"] [] false
        (some "zscore") none false 10000 none none "1s"
      = ⟨some (postProcess dropRowsCollab false (some "zscore") "1s"
            (DataCollector.get_data (bucketOf srcD "d") c3env "e" ["m"] [] none false
              10000 none none "1s" "-30d")),
         (dataidOf "d" "e" ["m"] [] false (some "zscore") none none "1s",
          DataCollector.get_data (bucketOf srcD "d") c3env "e" ["m"] [] none false
            10000 none none "1s" "-30d") :: [],
         true⟩ :=
  ⟨by decide, rfl,
   c3_cache_stores_prefiltered srcD c3env dropRowsCollab [] "d" "e" ["m"] [] false
     (some "zscore") none false 10000 none none "1s" (by decide) rfl⟩

/-- C6: at the response layer of the single-experiment `/get_data` path, an
available datasource whose retrieval produced an empty table yields the
404 JSON error response, while a datasource that is not configured or has
no client makes the handler raise (AttributeError on `None.items()`); the
two response signals are distinct. -/
theorem c6_empty_vs_unavailable (ec : Bool) (sources : List (String × Source))
    (env : String → DF) (C : Collaborators) (cache : List (String × Frame))
    (ds e : String) (ms fs : List String) (msr : Bool) (ro ac : Option String)
    (ch : Bool) (cs : Int) (l o : Option Int) (ml : String) (f : Frame)
    (hdata : (retrieve_data ec sources env C cache ds e ms fs msr ro ac ch cs l o ml).data
        = some f)
    (hemp : f.emptyB = true)
    (ds2 : String) (hun : availableB sources ds2 = false) :
    (Routes.get_data ec sources env C cache ds e none ms fs msr ro ac ch cs l o ml).1
      = Resp.json (Body.errMsg ("Data source " ++ ds ++ " is currently not available.")) 404
  ∧ (Routes.get_data ec sources env C cache ds2 e none ms fs msr ro ac ch cs l o ml).1
      = Resp.raised
  ∧ (Routes.get_data ec sources env C cache ds e none ms fs msr ro ac ch cs l o ml).1
      ≠ (Routes.get_data ec sources env C cache ds2 e none ms fs msr ro ac ch cs l o ml).1 := by
  have h1 : (Routes.get_data ec sources env C cache ds e none ms fs msr ro ac ch cs l o ml).1
      = Resp.json (Body.errMsg ("Data source " ++ ds ++ " is currently not available.")) 404 := by
    simp [Routes.get_data, hdata, hemp]
  have h2 : (Routes.get_data ec sources env C cache ds2 e none ms fs msr ro ac ch cs l o ml).1
      = Resp.raised := by
    simp [Routes.get_data, retrieve_data_unavailable hun ec env C cache e ms fs msr ro ac ch cs l o ml]
  refine ⟨h1, h2, ?_⟩
  rw [h1, h2]
  exact fun hcontra => Resp.noConfusion hcontra

/-- C6 witness: an all-empty store on the one-datasource setup, against
the unconfigured name `x`. -/
theorem c6_empty_vs_unavailable_witness :
    (retrieve_data false srcD emptyEnv idCollab [] "d" "e" [] [] false none none
        false 10000 none none "1s").data = some emptyFrame
  ∧ emptyFrame.emptyB = true
  ∧ availableB srcD "x" = false
  ∧ (Routes.get_data false srcD emptyEnv idCollab [] "d" "e" none [] [] false none
        none false 10000 none none "1s").1
      ≠ (Routes.get_data false srcD emptyEnv idCollab [] "x" "e" none [] [] false none
        none false 10000 none none "1s").1 :=
  ⟨by decide, by decide, by decide,
   (c6_empty_vs_unavailable false srcD emptyEnv idCollab [] "d" "e" [] [] false none
      none false 10000 none none "1s" emptyFrame (by decide) (by decide) "x"
      (by decide)).2.2⟩

/-- C7: the claim says every route surfaces an unavailable datasource as a
not-found response and never raises out of the handler; the discovery
routes and the two-experiment path do, but the single-experiment
`/get_data` path does not: `retrieve_data` returns `None`, the emptiness
test on line 135 matches neither branch, and `None.items()` on line 137
raises. Evaluated here at a datasource name that is not configured and at
one whose client failed to initialize. -/
theorem c7_unavailable_raises_in_single_path :
    (Routes.get_data false srcD emptyEnv idCollab [] "nope" "e" none [] [] false none
        none false 10000 none none "1s").1 = Resp.raised
  ∧ (Routes.get_data false srcDead emptyEnv idCollab [] "x" "e" none [] [] false none
        none false 10000 none none "1s").1 = Resp.raised := by decide

/-- If every per-measurement query of the list comes back empty, the
measurement loop of `get_data` contributes nothing and the result is the
explicitly empty frame. -/
theorem runMeasurements_empty (bucket : String) (env : String → DF) (e : String)
    (fs : List String) (l o : Option Int) (ml st : String) (ms : List String)
    (h : ∀ m ∈ ms, (env (dataQueryFlux bucket e fs l o ml st m)).emptyB = true) :
    runMeasurements bucket env e fs l o ml st ms = emptyFrame := by
  have hnil : ms.filterMap (fun m =>
      let df := env (dataQueryFlux bucket e fs l o ml st m)
      if df.emptyB then none else some (toFrame df)) = [] := by
    rw [List.filterMap_eq_nil_iff]
    intro m hm
    simp [h m hm]
  simp [runMeasurements, hnil]

/-- C8: a collector `get_data` call with an empty measurements argument
first resolves the list through `get_measurements_for_experimentId` for
that experiment identifier (the call computes the same result as passing
the resolved list); and when no resolved measurement produces rows the
call returns the empty table rather than an error. -/
theorem c8_empty_measurements_resolved (bucket : String) (env : String → DF)
    (e : String) (fs : List String) (ac : Option String) (ch : Bool) (cs : Int)
    (l o : Option Int) (ml st : String) :
    DataCollector.get_data bucket env e [] fs ac ch cs l o ml st
      = DataCollector.get_data bucket env e
          (DataCollector.get_measurements_for_experimentId bucket env e st)
          fs ac ch cs l o ml st
  ∧ ((∀ m ∈ DataCollector.get_measurements_for_experimentId bucket env e st,
        (env (dataQueryFlux bucket e fs l o ml st m)).emptyB = true) →
      DataCollector.get_data bucket env e [] fs ac ch cs l o ml st = emptyFrame) := by
  constructor
  · simp [DataCollector.get_data]
  · intro h
    have hempty := runMeasurements_empty bucket env e fs l o ml st
      (DataCollector.get_measurements_for_experimentId bucket env e st) h
    simpa [DataCollector.get_data] using hempty

/-- C8 witness: over the all-empty store the resolved list is empty and
the call returns the empty table. -/
theorem c8_empty_measurements_resolved_witness :
    (∀ m ∈ DataCollector.get_measurements_for_experimentId "b" emptyEnv "e" "-30d",
        (emptyEnv (dataQueryFlux "b" "e" [] none none "1s" "-30d" m)).emptyB = true)
  ∧ DataCollector.get_data "b" emptyEnv "e" [] [] none false 10000 none none "1s" "-30d"
      = emptyFrame :=
  ⟨by decide,
   (c8_empty_measurements_resolved "b" emptyEnv "e" [] none false 10000 none none
      "1s" "-30d").2 (by decide)⟩

/-- `sorted(set([]))` is the empty list. -/
theorem sortedUnique_nil {α : Type} [LinearOrder α] [DecidableEq α] :
    sortedUnique ([] : List α) = [] := rfl

/-- C9: each catalog discovery operation returns a lexicographically
sorted, duplicate-free list; for the two tag-value operations membership
is exactly membership in the union of the values found under the legacy
tag names ExperimentId and ExecutionId, and when both underlying queries
return no rows the result is the empty list, not an error; the
measurement discovery (whose single query already ORs the two tag names
in its filter) likewise returns the empty list when its query returns no
rows. -/
theorem c9_catalog_discovery (bucket : String) (env : String → DF) (m e st : String) :
    (List.Sorted (fun a b => a ≤ b) (DataCollector.get_all_experimentIds bucket env)
     ∧ (DataCollector.get_all_experimentIds bucket env).Nodup
     ∧ (∀ s, s ∈ DataCollector.get_all_experimentIds bucket env ↔
          s ∈ tagValsOf env (schemaTagValuesAllFlux bucket "ExperimentId")
            ∨ s ∈ tagValsOf env (schemaTagValuesAllFlux bucket "ExecutionId"))
     ∧ ((env (schemaTagValuesAllFlux bucket "ExperimentId")).emptyB = true →
        (env (schemaTagValuesAllFlux bucket "ExecutionId")).emptyB = true →
        DataCollector.get_all_experimentIds bucket env = []))
  ∧ (List.Sorted (fun a b => a ≤ b)
        (DataCollector.get_experimentIds_for_measurement bucket env m st)
     ∧ (DataCollector.get_experimentIds_for_measurement bucket env m st).Nodup
     ∧ (∀ s, s ∈ DataCollector.get_experimentIds_for_measurement bucket env m st ↔
          s ∈ tagValsOf env (schemaTagValuesMeasFlux bucket "ExperimentId" m)
            ∨ s ∈ tagValsOf env (schemaTagValuesMeasFlux bucket "ExecutionId" m))
     ∧ ((env (schemaTagValuesMeasFlux bucket "ExperimentId" m)).emptyB = true →
        (env (schemaTagValuesMeasFlux bucket "ExecutionId" m)).emptyB = true →
        DataCollector.get_experimentIds_for_measurement bucket env m st = []))
  ∧ (List.Sorted (fun a b => a ≤ b)
        (DataCollector.get_measurements_for_experimentId bucket env e st)
     ∧ (DataCollector.get_measurements_for_experimentId bucket env e st).Nodup
     ∧ ((env (measurementsFlux bucket e st)).emptyB = true →
        DataCollector.get_measurements_for_experimentId bucket env e st = [])) := by
  refine ⟨⟨sortedUnique_sorted _, sortedUnique_nodup _, ?_, ?_⟩,
    ⟨sortedUnique_sorted _, sortedUnique_nodup _, ?_, ?_⟩, ⟨?_, ?_, ?_⟩⟩
  · intro s
    simp [DataCollector.get_all_experimentIds, mem_sortedUnique, List.mem_append]
  · intro h1 h2
    simp [DataCollector.get_all_experimentIds, tagValsOf, h1, h2, sortedUnique_nil]
  · intro s
    simp [DataCollector.get_experimentIds_for_measurement, mem_sortedUnique, List.mem_append]
  · intro h1 h2
    simp [DataCollector.get_experimentIds_for_measurement, tagValsOf, h1, h2, sortedUnique_nil]
  · by_cases hdf : (env (measurementsFlux bucket e st)).emptyB = true
    · simp [DataCollector.get_measurements_for_experimentId, hdf]
    · simp only [DataCollector.get_measurements_for_experimentId, if_neg hdf]
      exact sortedUnique_sorted _
  · by_cases hdf : (env (measurementsFlux bucket e st)).emptyB = true
    · simp [DataCollector.get_measurements_for_experimentId, hdf]
    · simp only [DataCollector.get_measurements_for_experimentId, if_neg hdf]
      exact sortedUnique_nodup _
  · intro h
    simp [DataCollector.get_measurements_for_experimentId, h]

/-- C9 witness: over the all-empty store all three operations return the
empty list. -/
theorem c9_catalog_discovery_witness :
    (emptyEnv (schemaTagValuesAllFlux "b" "ExperimentId")).emptyB = true
  ∧ DataCollector.get_all_experimentIds "b" emptyEnv = []
  ∧ DataCollector.get_experimentIds_for_measurement "b" emptyEnv "m" "-90d" = []
  ∧ DataCollector.get_measurements_for_experimentId "b" emptyEnv "e" "-90d" = [] :=
  ⟨rfl,
   (c9_catalog_discovery "b" emptyEnv "m" "e" "-90d").1.2.2.2 rfl rfl,
   (c9_catalog_discovery "b" emptyEnv "m" "e" "-90d").2.1.2.2.2 rfl rfl,
   (c9_catalog_discovery "b" emptyEnv "m" "e" "-90d").2.2.2.2 rfl⟩

/-- C10: rebasing in the two-experiment comparison path (`rebaseIndex`,
applied by `Routes.get_data` to each series before synchronization)
subtracts the minimum timestamp of the own index of a series: the index
[T, T+5, T+10] becomes [0, 5, 10], and for every non-empty index the
rebased index attains 0, has no negative entries, and preserves all
pairwise differences. -/
theorem c10_rebasing :
    (∀ T : Int, rebaseIndex [T, T + 5, T + 10] = [0, 5, 10])
  ∧ ∀ idx : List Int, idx ≠ [] →
      0 ∈ rebaseIndex idx
    ∧ (∀ x ∈ rebaseIndex idx, 0 ≤ x)
    ∧ ∀ i j : Nat, i < idx.length → j < idx.length →
        (rebaseIndex idx).getD i 0 - (rebaseIndex idx).getD j 0
          = idx.getD i 0 - idx.getD j 0 := by
  constructor
  · intro T
    have hmin : listMin [T, T + 5, T + 10] = some T := by
      simp only [listMin, List.foldl_cons, List.foldl_nil]
      split_ifs <;> (try rfl) <;> omega
    simp only [rebaseIndex, hmin, List.map_cons, List.map_nil]
    norm_num
  · intro idx h
    obtain ⟨mv, hm⟩ := listMin_ne_nil h
    have hrw : rebaseIndex idx = idx.map (fun t => t - mv) := by
      simp [rebaseIndex, hm]
    refine ⟨?_, ?_, ?_⟩
    · rw [hrw]
      exact List.mem_map.mpr ⟨mv, listMin_mem hm, by omega⟩
    · rw [hrw]
      intro x hx
      obtain ⟨y, hy, rfl⟩ := List.mem_map.mp hx
      have := listMin_le hm y hy
      omega
    · intro i j hi hj
      rw [hrw, getD_map_sub idx mv i hi, getD_map_sub idx mv j hj]
      ring

/-- C10 witness: the concrete index [3, 8, 13] (T = 3). -/
theorem c10_rebasing_witness :
    ([3, 8, 13] : List Int) ≠ []
  ∧ rebaseIndex [3, 8, 13] = [0, 5, 10]
  ∧ 0 ∈ rebaseIndex [3, 8, 13] :=
  ⟨by decide, c10_rebasing.1 3, (c10_rebasing.2 [3, 8, 13] (by decide)).1⟩
